import Mathlib

/-!
Verification of the AI-extraction integration-test harness
(`test-ai-extraction.py`).

The harness sends fixed test payloads to an HTTP endpoint and validates the
JSON response's `extraction` object against a per-test expected mapping.
We embed the response-processing and validation logic shallowly:

* JSON values are `JVal` (numbers as rationals, adequate for the decimal
  thresholds compared here; Python floats only differ from exact rationals
  by rounding, which none of the comparisons in this suite exercises);
* Python exceptions are `Except String`;
* the HTTP call (`call_ai_extraction`) is abstracted as a response argument:
  everything after the request is a pure function of the decoded response
  body, or of the raised transport/decoding error.
-/

/-- A JSON value as decoded by Python's `response.json()`.  Objects are
association lists in document order; the first binding for a key wins on
lookup (JSON objects decoded by Python have unique keys). -/
inductive JVal where
  | null
  | bool (b : Bool)
  | num (q : ℚ)
  | str (s : String)
  | arr (xs : List JVal)
  | obj (fields : List (String × JVal))

mutual

/-- Structural equality of JSON values, used by `pyEq` for the container
cases that the suite's scalar expected values never reach. -/
def jvalEqb : JVal → JVal → Bool
  | .null, .null => true
  | .bool a, .bool b => a == b
  | .num p, .num q => decide (p = q)
  | .str s, .str t => s == t
  | .arr xs, .arr ys => jarrEqb xs ys
  | .obj xs, .obj ys => jobjEqb xs ys
  | _, _ => false

/-- Elementwise structural equality of JSON arrays. -/
def jarrEqb : List JVal → List JVal → Bool
  | [], [] => true
  | x :: xs, y :: ys => jvalEqb x y && jarrEqb xs ys
  | _, _ => false

/-- Entrywise structural equality of JSON objects. -/
def jobjEqb : List (String × JVal) → List (String × JVal) → Bool
  | [], [] => true
  | (k1, v1) :: xs, (k2, v2) :: ys => k1 == k2 && jvalEqb v1 v2 && jobjEqb xs ys
  | _, _ => false

end

/-- Python `d.get(k)` on a dict represented as an association list
(`none` when the key is absent). -/
def pyGet (d : List (String × JVal)) (k : String) : Option JVal :=
  match d with
  | [] => none
  | (k2, v) :: rest => if k2 == k then some v else pyGet rest k

/-- Numeric value of a Python bool (`True == 1`, `False == 0`). -/
def boolVal (b : Bool) : ℚ := if b then 1 else 0

/-- Python truthiness of a JSON-decoded value. -/
def pyTruthy : JVal → Bool
  | .null => false
  | .bool b => b
  | .num q => !(decide (q = 0))
  | .str s => !s.isEmpty
  | .arr xs => !xs.isEmpty
  | .obj xs => !xs.isEmpty

/-- Python `==` on JSON-decoded values.  Scalars follow Python semantics,
including the bool/number coercion (`True == 1`, `False == 0`); `None` is
equal only to `None`.  Containers are compared structurally (objects
order-sensitively, without coercion inside), a simplification that is
adequate here because every expected value in this suite is a scalar, so a
container on the actual side always compares unequal, as in Python. -/
def pyEq (a b : JVal) : Bool :=
  match a, b with
  | .bool x, .num q => decide (boolVal x = q)
  | .num q, .bool x => decide (q = boolVal x)
  | a, b => jvalEqb a b

/-- ASCII lower-casing of a string, embedding Python's `str.lower()`
(all strings in this suite are ASCII). -/
def lowerStr (s : String) : String := String.mk (s.data.map Char.toLower)

/-- `startsList needle l` is true iff `needle` is a prefix of `l`;
used to embed Python's substring operator. -/
def startsList : List Char → List Char → Bool
  | [], _ => true
  | _ :: _, [] => false
  | a :: as, b :: bs => a == b && startsList as bs

/-- `containsList needle hay` embeds Python's `needle in hay` on strings
(as character lists): true iff `needle` occurs contiguously in `hay`. -/
def containsList (needle hay : List Char) : Bool :=
  match hay with
  | [] => needle.isEmpty
  | _ :: t => startsList needle hay || containsList needle t

/-- Numeric value of a digit-character list, most significant first. -/
def digitsToNat (l : List Char) : Nat :=
  l.foldl (fun a c => 10 * a + (c.toNat - 48)) 0

/-- Decimal part of `parseFloat`: digits with an optional single point,
at least one digit overall.  The value `ip.fp` is the exact rational
`(ip * 10 ^ |fp| + fp) / 10 ^ |fp|`, built with `mkRat`. -/
def parseUnsigned (l : List Char) : Option ℚ :=
  let ip := l.takeWhile Char.isDigit
  let rest := l.dropWhile Char.isDigit
  match rest with
  | [] => if ip.isEmpty then none else some (mkRat (digitsToNat ip) 1)
  | c :: fp =>
    if c == '.' && fp.all Char.isDigit && !(ip.isEmpty && fp.isEmpty) then
      some (mkRat (digitsToNat ip * 10 ^ fp.length + digitsToNat fp) (10 ^ fp.length))
    else none

/-- Embedding of Python's `float(s)` on plain decimal notation with an
optional sign, as an exact rational; `none` models the `ValueError` raise.
(Python's `float` also accepts exponent/inf/nan spellings and surrounding
whitespace; no comparator string in this suite uses those forms.) -/
def parseFloat (s : String) : Option ℚ :=
  match s.data with
  | '-' :: l => (parseUnsigned l).map Rat.neg
  | '+' :: l => parseUnsigned l
  | l => parseUnsigned l

/-- Python's `<`/`>` between a JSON-decoded value and a float: defined for
numbers and bools, a `TypeError` for every other type.  `gt` selects
`actual > t` versus `actual < t`. -/
def pyCmpFloat (v : JVal) (t : ℚ) (gt : Bool) : Except String Bool :=
  match v with
  | .num q => .ok (if gt then decide (t < q) else decide (q < t))
  | .bool b => .ok (if gt then decide (t < boolVal b) else decide (boolVal b < t))
  | _ => .error "TypeError: comparison not supported between instances"

/-- The confidence-threshold branch of the validation loop
(`test-ai-extraction.py` lines 79-94): a comparator string starting with
`>` or `<` parses its remainder as a float threshold and requires the
actual value to be truthy and to compare; any other string does nothing.
The guard `if actual_value and actual_value > threshold` is truthiness
followed by a comparison that can raise. -/
def confCheck (actual : JVal) (s : String) : Except String (List String) :=
  match s.data with
  | '>' :: rest =>
    match parseFloat (String.mk rest) with
    | none => .error "ValueError: could not convert string to float"
    | some threshold =>
      match (if pyTruthy actual then pyCmpFloat actual threshold true else .ok false) with
      | .error e => .error e
      | .ok c => .ok (if c then [] else ["confidence validation failed"])
  | '<' :: rest =>
    match parseFloat (String.mk rest) with
    | none => .error "ValueError: could not convert string to float"
    | some threshold =>
      match (if pyTruthy actual then pyCmpFloat actual threshold false else .ok false) with
      | .error e => .error e
      | .ok c => .ok (if c then [] else ["confidence validation failed"])
  | _ => .ok []

/-- Python's `v.lower()`: defined on strings, an `AttributeError` raise on
any other type (e.g. a present-but-null reasoning field). -/
def jLower : JVal → Except String String
  | .str s => .ok (lowerStr s)
  | _ => .error "AttributeError: object has no attribute lower"

/-- The `reasoning_contains` branch of the validation loop (lines 95-100):
`expected_value.lower() in extraction.get('reasoning', '').lower()`,
the default `''` applying only when the key is absent. -/
def reasoningCheck (extraction : List (String × JVal)) (ev : JVal) :
    Except String (List String) :=
  match jLower ev with
  | .error e => .error e
  | .ok needle =>
    match jLower ((pyGet extraction "reasoning").getD (.str "")) with
    | .error e => .error e
    | .ok hay =>
      .ok (if containsList needle.data hay.data then []
           else ["Reasoning missing expected text"])

/-- `isinstance(expected_value, str)`. -/
def isStr : JVal → Bool
  | .str _ => true
  | _ => false

/-- The payload of a string value (only read under `isStr`). -/
def strVal : JVal → String
  | .str s => s
  | _ => ""

/-- One iteration of the validation loop (lines 76-106): dispatch on the
key and the expected value's shape, producing the issues recorded for this
key (`[]` or a singleton) or propagating a raised exception. -/
def checkOne (extraction : List (String × JVal)) (key : String) (ev : JVal) :
    Except String (List String) :=
  let actual := (pyGet extraction key).getD .null
  if key == "confidence" && isStr ev then
    confCheck actual (strVal ev)
  else if key == "reasoning_contains" then
    reasoningCheck extraction ev
  else
    .ok (if pyEq actual ev then [] else [key ++ " mismatch"])

/-- The whole validation loop: issues of each expected key in key order,
concatenated; an exception raised mid-loop aborts the loop (and discards
the issues accumulated so far, as the enclosing `try` does). -/
def validateExpectations (extraction : List (String × JVal)) :
    List (String × JVal) → Except String (List String)
  | [] => .ok []
  | (k, v) :: rest =>
    match checkOne extraction k v with
    | .error e => .error e
    | .ok i =>
      match validateExpectations extraction rest with
      | .error e => .error e
      | .ok more => .ok (i ++ more)

/-- `result.get("extraction", {})` (line 47): dict lookup with a default,
an `AttributeError` raise when the response body is not a JSON object. -/
def dictGetDefault (v : JVal) (k : String) (dflt : JVal) : Except String JVal :=
  match v with
  | .obj d => .ok ((pyGet d k).getD dflt)
  | _ => .error "AttributeError: object has no attribute get"

/-- The result-dump print block (lines 52-69) calls `extraction.get(...)`
eighteen times: it succeeds exactly when `extraction` is a mapping, whose
fields it returns, and raises `AttributeError` otherwise. -/
def asObj : JVal → Except String (List (String × JVal))
  | .obj d => .ok d
  | _ => .error "AttributeError: object has no attribute get"

/-- The body of `run_test`'s `try` block as a pure computation: decode
result, take its `extraction` sub-object (default `{}`), dump its fields,
validate; any raised exception propagates. -/
def run_testBody (resp : Except String JVal) (expected : List (String × JVal)) :
    Except String (JVal × List String) :=
  match resp with
  | .error e => .error e
  | .ok result =>
    match dictGetDefault result "extraction" (.obj []) with
    | .error e => .error e
    | .ok extraction =>
      match asObj extraction with
      | .error e => .error e
      | .ok extFields =>
        match validateExpectations extFields expected with
        | .error e => .error e
        | .ok issues => .ok (extraction, issues)

/-- The record returned by `run_test`. -/
structure TestOutcome where
  test_id : String
  status : String
  issues : List String
  extraction : Option JVal

/-- `run_test` (lines 33-127): the `try` body produces PASS/FAIL from the
emptiness of the issues list; the `except` clause converts any raised
exception into an ERROR outcome with the stringified error as sole issue
and a null extraction. -/
def run_test (test_id : String) (resp : Except String JVal)
    (expected : List (String × JVal)) : TestOutcome :=
  match run_testBody resp expected with
  | .ok (extraction, issues) =>
    { test_id := test_id
      status := if issues.isEmpty then "PASS" else "FAIL"
      issues := issues
      extraction := some extraction }
  | .error e =>
    { test_id := test_id, status := "ERROR", issues := [e], extraction := none }

/-- One fixed test case (`main`, lines 131-285).  The request-payload
fields (caption, locationHint, postId, postedAt) are consumed only by the
abstracted HTTP call and are omitted from the embedding. -/
structure TestCase where
  id : String
  description : String
  expected : List (String × JVal)

/-- Test 01 "Recurring Event - Every Friday". -/
def test01 : TestCase :=
  { id := "01"
    description := "Recurring Event - Every Friday"
    expected := [("isEvent", .bool true), ("isRecurring", .bool true),
                 ("eventTime", .str "22:00:00"), ("confidence", .str ">0.75")] }

/-- Test 02 "Multi-day Event - Date Range". -/
def test02 : TestCase :=
  { id := "02"
    description := "Multi-day Event - Date Range"
    expected := [("isEvent", .bool true), ("eventDate", .str "2025-12-12"),
                 ("eventEndDate", .str "2025-12-13"), ("isRecurring", .bool false)] }

/-- Test 03 "Midnight Crossing Event". -/
def test03 : TestCase :=
  { id := "03"
    description := "Midnight Crossing Event"
    expected := [("isEvent", .bool true), ("eventDate", .str "2025-12-20"),
                 ("eventTime", .str "22:00:00"), ("endTime", .str "04:00:00"),
                 ("eventEndDate", .str "2025-12-21")] }

/-- Test 04 "Operating Hours - NOT AN EVENT". -/
def test04 : TestCase :=
  { id := "04"
    description := "Operating Hours - NOT AN EVENT"
    expected := [("isEvent", .bool false), ("confidence", .str "<0.6")] }

/-- Test 05 "Past Event Throwback". -/
def test05 : TestCase :=
  { id := "05"
    description := "Past Event Throwback"
    expected := [("isEvent", .bool false), ("confidence", .str "<0.5")] }

/-- Test 06 "Relative Date - Tomorrow". -/
def test06 : TestCase :=
  { id := "06"
    description := "Relative Date - Tomorrow"
    expected := [("isEvent", .bool true), ("eventDate", .str "2025-12-18"),
                 ("eventTime", .str "21:00:00")] }

/-- Test 07 "Free Event". -/
def test07 : TestCase :=
  { id := "07"
    description := "Free Event"
    expected := [("isEvent", .bool true), ("isFree", .bool true),
                 ("price", .null), ("eventDate", .str "2025-12-25")] }

/-- Test 08 "Price Range - Presale/Door". -/
def test08 : TestCase :=
  { id := "08"
    description := "Price Range - Presale/Door"
    expected := [("isEvent", .bool true), ("isFree", .bool false),
                 ("eventDate", .str "2025-12-31")] }

/-- Test 09 "Sold Out Status". -/
def test09 : TestCase :=
  { id := "09"
    description := "Sold Out Status"
    expected := [("isEvent", .bool true), ("availabilityStatus", .str "sold_out"),
                 ("eventDate", .str "2025-12-20")] }

/-- Test 10 "No Date - Should Reject". -/
def test10 : TestCase :=
  { id := "10"
    description := "No Date - Should Reject"
    expected := [("isEvent", .bool false), ("eventDate", .null),
                 ("confidence", .str "<0.6")] }

/-- The fixed ordered test list of `main`. -/
def tests : List TestCase :=
  [test01, test02, test03, test04, test05, test06, test07, test08,
   test09, test10]

/-- The results list accumulated by `main`'s loop (lines 287-310): one
`run_test` outcome per test case, in list order.  The per-test response
(or raised transport error) is abstracted as `respond`; the pass/fail
counters, pacing sleep, console report and the JSON serialization of this
very list to `test-results.json` do not alter it. -/
def mainResults (respond : TestCase → Except String JVal) : List TestOutcome :=
  tests.map (fun t => run_test t.id (respond t) t.expected)

/-- The issues a (non-raising) per-key check recorded. -/
def okIssues : Except String (List String) → List String
  | .ok l => l
  | .error _ => []

/-- An extraction for Test 01 in which exactly one of the four checks
(eventTime) fails. -/
def extEventTimeWrong : List (String × JVal) :=
  [("isEvent", .bool true), ("isRecurring", .bool true),
   ("eventTime", .str "21:00:00"), ("confidence", .num (mkRat 9 10))]

/-- Values the threshold guard never raises on: null (short-circuited by
the truthiness test) and bools/numbers (comparable against a float). -/
def numLike : JVal → Bool
  | .null => true
  | .bool _ => true
  | .num _ => true
  | _ => false

example :
    (run_test "01" (.ok (.obj [("extraction",
        .obj [("isEvent", .bool true), ("isRecurring", .bool true),
              ("eventTime", .str "22:00:00"), ("confidence", .num (mkRat 9 10))])]))
      test01.expected).status = "PASS" := by decide

example :
    (run_test "01" (.ok (.obj [("extraction",
        .obj [("isEvent", .bool true), ("isRecurring", .bool true),
              ("eventTime", .str "22:00:00"), ("confidence", .num (mkRat 1 2))])]))
      test01.expected).issues = ["confidence validation failed"] := by decide

example :
    (run_test "01" (.error "Connection timed out") test01.expected).status
      = "ERROR" := by decide

/-- The `test_id` of a `run_test` outcome is the id it was called with,
in both the success and the exception branch. -/
theorem run_test_test_id (test_id : String) (resp : Except String JVal)
    (expected : List (String × JVal)) :
    (run_test test_id resp expected).test_id = test_id := by
  unfold run_test
  rcases h : run_testBody resp expected with e | ⟨ex, issues⟩ <;> simp

/-- C3: for every outcome produced by running a test case — whether the
request succeeds or raises — the status is `PASS` iff the issues list is
empty. -/
theorem C3_pass_iff_no_issues (test_id : String) (resp : Except String JVal)
    (expected : List (String × JVal)) :
    (run_test test_id resp expected).status = "PASS" ↔
      (run_test test_id resp expected).issues = [] := by
  unfold run_test
  rcases h : run_testBody resp expected with e | ⟨ex, issues⟩
  · simp
  · cases issues <;> simp

/-- C4: whenever an outcome has status `ERROR`, its extraction field is
null and its issues list is exactly the singleton list holding the
stringified raised error. -/
theorem C4_error_outcome_shape (test_id : String) (resp : Except String JVal)
    (expected : List (String × JVal))
    (h : (run_test test_id resp expected).status = "ERROR") :
    (run_test test_id resp expected).extraction = none ∧
      ∃ e, run_testBody resp expected = .error e ∧
        (run_test test_id resp expected).issues = [e] := by
  revert h
  unfold run_test
  rcases hb : run_testBody resp expected with e | ⟨ex, issues⟩
  · intro _
    exact ⟨rfl, e, rfl, rfl⟩
  · intro h
    cases issues <;> simp at h

/-- Witness for C4 at a concrete raised transport error. -/
theorem C4_error_outcome_shape_witness :
    (run_test "w" (.error "Connection timed out") []).extraction = none ∧
      ∃ e, run_testBody (Except.error "Connection timed out") ([] : List (String × JVal)) = .error e ∧
        (run_test "w" (.error "Connection timed out") []).issues = [e] :=
  C4_error_outcome_shape "w" (.error "Connection timed out") [] (by rfl)

/-- C9: for any responses (or raised errors) the endpoint produces, the
driver's results list — the list serialized to `test-results.json` — has
exactly one outcome per test case, in test-list order; there are exactly
ten test cases. -/
theorem C9_run_completeness (respond : TestCase → Except String JVal) :
    (mainResults respond).length = 10 ∧
      (mainResults respond).map TestOutcome.test_id = tests.map TestCase.id := by
  constructor
  · simp [mainResults, tests]
  · simp [mainResults, List.map_map, Function.comp, run_test_test_id]

/-- C10: a `"confidence"` expectation whose value is a string starting
with neither `>` nor `<` is silently skipped: no check runs, no issue can
be recorded, for every extraction mapping. -/
theorem C10_noncomparator_confidence_noop (extraction : List (String × JVal))
    (s : String) (hgt : s.data.head? ≠ some '>') (hlt : s.data.head? ≠ some '<') :
    validateExpectations extraction [("confidence", .str s)] = .ok [] := by
  have hconf : checkOne extraction "confidence" (.str s) = .ok [] := by
    unfold checkOne confCheck
    simp only [isStr, strVal]
    norm_num
    split
    · simp_all
    · simp_all
    · rfl
  unfold validateExpectations
  rw [hconf]
  rfl

/-- Witness for C10: the expected value `"0.8"` (a plain number string,
as in exact-equality shape but under the confidence key) never records an
issue even though the actual confidence is far from `0.8`. -/
theorem C10_noncomparator_confidence_noop_witness :
    validateExpectations [("confidence", JVal.num (mkRat 1 10))]
      [("confidence", JVal.str "0.8")] = .ok [] :=
  C10_noncomparator_confidence_noop [("confidence", JVal.num (mkRat 1 10))]
    "0.8" (by decide) (by decide)

/-- Python `v == None` holds exactly for `None` itself: no falsy coercion. -/
theorem pyEq_null_iff (v : JVal) : pyEq v .null = true ↔ v = .null := by
  cases v <;> simp [pyEq, jvalEqb]

/-- On a key that is neither confidence-with-string-expected nor the
synthetic `reasoning_contains`, `checkOne` performs the exact-equality
check. -/
theorem checkOne_exact (ext : List (String × JVal)) (k : String) (v : JVal)
    (h1 : ((k == "confidence") && isStr v) = false)
    (h2 : (k == "reasoning_contains") = false) :
    checkOne ext k v =
      .ok (if pyEq ((pyGet ext k).getD .null) v then []
           else [k ++ " mismatch"]) := by
  unfold checkOne
  rw [h1, h2]
  rfl

/-- C5: exact-equality mode with expected `None` requires the actual field
to be null/absent, not merely falsy: an actual `0` or `""` records a
`mismatch` issue, an absent key passes, and among all actual values only
`None` passes. -/
theorem C5_none_requires_null (k : String) (hk : k ≠ "reasoning_contains") :
    validateExpectations [(k, .num 0)] [(k, .null)] = .ok [k ++ " mismatch"] ∧
    validateExpectations [(k, .str "")] [(k, .null)] = .ok [k ++ " mismatch"] ∧
    validateExpectations [] [(k, .null)] = .ok [] ∧
    (∀ v : JVal, validateExpectations [(k, v)] [(k, .null)] = .ok [] ↔ v = .null) := by
  have hb : (k == "reasoning_contains") = false := by
    simpa using hk
  have hone : ∀ v : JVal,
      checkOne [(k, v)] k .null =
        .ok (if pyEq v .null then [] else [k ++ " mismatch"]) := by
    intro v
    have h := checkOne_exact [(k, v)] k .null (by simp [isStr]) hb
    rw [h]
    simp [pyGet]
  have hvalid : ∀ v : JVal,
      validateExpectations [(k, v)] [(k, .null)] =
        .ok (if pyEq v .null then [] else [k ++ " mismatch"]) := by
    intro v
    unfold validateExpectations
    rw [hone v]
    cases h : pyEq v .null <;> simp [validateExpectations]
  refine ⟨?_, ?_, ?_, ?_⟩
  · rw [hvalid (.num 0)]
    simp [pyEq, jvalEqb]
  · rw [hvalid (.str "")]
    simp [pyEq, jvalEqb]
  · have h := checkOne_exact [] k .null (by simp [isStr]) hb
    unfold validateExpectations
    rw [h]
    simp [pyGet, pyEq, jvalEqb, validateExpectations]
  · intro v
    rw [hvalid v]
    rcases h : pyEq v .null with _ | _
    · simpa [h] using fun hv => by simp [hv, pyEq, jvalEqb] at h
    · simpa [h] using (pyEq_null_iff v).mp h

/-- Witness for C5 at the key `"price"` (Test 07 expects `price: None`):
actual `0` and `""` mismatch, absent and null actuals pass. -/
theorem C5_none_requires_null_witness :
    validateExpectations [("price", JVal.num 0)] [("price", JVal.null)]
        = .ok ["price mismatch"] ∧
    validateExpectations [("price", JVal.str "")] [("price", JVal.null)]
        = .ok ["price mismatch"] ∧
    validateExpectations [] [("price", JVal.null)] = .ok [] ∧
    validateExpectations [("price", JVal.null)] [("price", JVal.null)] = .ok [] := by
  have h := C5_none_requires_null "price" (by decide)
  exact ⟨h.1, h.2.1, h.2.2.1, (h.2.2.2 JVal.null).mpr rfl⟩

/-- `startsList` decides list-prefix. -/
theorem startsList_iff (needle hay : List Char) :
    startsList needle hay = true ↔ ∃ post, hay = needle ++ post := by
  induction needle generalizing hay with
  | nil => simp [startsList]
  | cons a as ih =>
    cases hay with
    | nil => simp [startsList]
    | cons b bs =>
      simp only [startsList, Bool.and_eq_true, beq_iff_eq, ih, List.cons_append,
        List.cons.injEq]
      constructor
      · rintro ⟨rfl, post, rfl⟩
        exact ⟨post, rfl, rfl⟩
      · rintro ⟨post, rfl, rfl⟩
        exact ⟨rfl, post, rfl⟩

/-- `containsList` decides contiguous-substring occurrence, the meaning of
Python's `in` on strings. -/
theorem containsList_iff (needle hay : List Char) :
    containsList needle hay = true ↔ ∃ pre post, hay = pre ++ needle ++ post := by
  induction hay with
  | nil =>
    cases needle <;> simp [containsList]
  | cons b bs ih =>
    simp only [containsList, Bool.or_eq_true, startsList_iff, ih]
    constructor
    · rintro (⟨post, h⟩ | ⟨pre, post, rfl⟩)
      · exact ⟨[], post, by simpa using h⟩
      · exact ⟨b :: pre, post, rfl⟩
    · rintro ⟨pre, post, h⟩
      cases pre with
      | nil =>
        left
        exact ⟨post, by simpa using h⟩
      | cons x xs =>
        right
        rw [List.cons_append, List.cons_append] at h
        injection h with h1 h2
        exact ⟨xs, post, h2⟩

/-- C7: substring mode — no issue for `reasoning_contains` iff the
expected string, lower-cased, occurs in the (string) reasoning field,
lower-cased; an absent reasoning field acts as the empty string; the
match is case-insensitive, e.g. `"recurring"` matches
`"This is a RECURRING event"`. -/
theorem C7_substring_mode (r s : String) :
    (validateExpectations [("reasoning", .str r)]
        [("reasoning_contains", .str s)] = .ok [] ↔
      ∃ pre post, (lowerStr r).data = pre ++ (lowerStr s).data ++ post) ∧
    (validateExpectations [] [("reasoning_contains", .str s)] = .ok [] ↔
      ∃ pre post, (lowerStr "").data = pre ++ (lowerStr s).data ++ post) ∧
    validateExpectations [("reasoning", .str "This is a RECURRING event")]
      [("reasoning_contains", .str "recurring")] = .ok [] := by
  have key : ∀ (ext : List (String × JVal)) (hay : String),
      (pyGet ext "reasoning").getD (.str "") = .str hay →
      (validateExpectations ext [("reasoning_contains", .str s)] = .ok [] ↔
        ∃ pre post, (lowerStr hay).data = pre ++ (lowerStr s).data ++ post) := by
    intro ext hay hget
    have hone : checkOne ext "reasoning_contains" (.str s) =
        .ok (if containsList (lowerStr s).data (lowerStr hay).data then []
             else ["Reasoning missing expected text"]) := by
      unfold checkOne reasoningCheck
      rw [hget]
      rfl
    unfold validateExpectations
    rw [hone]
    rcases h : containsList (lowerStr s).data (lowerStr hay).data with _ | _
    · rw [if_neg (by simp [h])]
      constructor
      · intro hk
        simp [validateExpectations] at hk
      · intro hex
        exact absurd ((containsList_iff _ _).mpr hex) (by simp [h])
    · rw [if_pos (by simp [h])]
      constructor
      · intro _
        exact (containsList_iff _ _).mp h
      · intro _
        simp [validateExpectations]
  refine ⟨key [("reasoning", .str r)] r (by simp [pyGet]),
    key [] "" (by simp [pyGet]), by rfl⟩

/-- When every per-key check of the expected mapping succeeds (raises no
exception), the loop records the concatenation of every key's issues, in
the expected mapping's key order. -/
theorem validate_ok_of_checks (extraction expected : List (String × JVal))
    (h : ∀ p ∈ expected, ∃ l, checkOne extraction p.1 p.2 = .ok l) :
    validateExpectations extraction expected =
      .ok (expected.flatMap fun p => okIssues (checkOne extraction p.1 p.2)) := by
  induction expected with
  | nil => rfl
  | cons p rest ih =>
    obtain ⟨k, v⟩ := p
    obtain ⟨l, hl⟩ := h (k, v) (List.mem_cons_self (k, v) rest)
    have hrest := ih (fun q hq => h q (List.mem_cons_of_mem (k, v) hq))
    unfold validateExpectations
    simp only at hl
    rw [hl, hrest, List.flatMap_cons]
    simp [okIssues, hl]

/-- The confidence-threshold branch records at most one issue. -/
theorem confCheck_issues_le_one (a : JVal) (s : String) :
    (okIssues (confCheck a s)).length ≤ 1 := by
  unfold confCheck
  split
  · split
    · simp [okIssues]
    · split
      · simp [okIssues]
      · rename_i c heq
        cases c <;> simp [okIssues]
  · split
    · simp [okIssues]
    · split
      · simp [okIssues]
      · rename_i c heq
        cases c <;> simp [okIssues]
  · simp [okIssues]

/-- The substring branch records at most one issue. -/
theorem reasoningCheck_issues_le_one (extraction : List (String × JVal))
    (ev : JVal) :
    (okIssues (reasoningCheck extraction ev)).length ≤ 1 := by
  unfold reasoningCheck
  split
  · simp [okIssues]
  · split
    · simp [okIssues]
    · split <;> simp [okIssues]

/-- A single check records at most one issue. -/
theorem checkOne_issues_le_one (extraction : List (String × JVal))
    (k : String) (v : JVal) :
    (okIssues (checkOne extraction k v)).length ≤ 1 := by
  unfold checkOne
  dsimp only
  split
  · exact confCheck_issues_le_one _ _
  · split
    · exact reasoningCheck_issues_le_one _ _
    · split <;> simp [okIssues]

/-- C6: expectation keys are evaluated independently, without
short-circuiting: whenever no per-key check raises, every key of the
expected mapping is checked, and the issues list is the concatenation of
each key's issues (at most one entry per key) in the expected mapping's
key order. -/
theorem C6_independent_evaluation (extraction expected : List (String × JVal))
    (h : ∀ p ∈ expected, ∃ l, checkOne extraction p.1 p.2 = .ok l) :
    validateExpectations extraction expected =
      .ok (expected.flatMap fun p => okIssues (checkOne extraction p.1 p.2)) ∧
    ∀ p ∈ expected, (okIssues (checkOne extraction p.1 p.2)).length ≤ 1 :=
  ⟨validate_ok_of_checks extraction expected h,
   fun p _ => checkOne_issues_le_one extraction p.1 p.2⟩

/-- Witness for C6 at the Test-01 expected mapping with exactly one
failing check: the outcome is FAIL with exactly that key's issue string
and no others. -/
theorem C6_independent_evaluation_witness :
    validateExpectations extEventTimeWrong test01.expected
        = .ok ["eventTime mismatch"] ∧
    (run_test "01" (.ok (.obj [("extraction", .obj extEventTimeWrong)]))
        test01.expected).status = "FAIL" := by
  constructor
  · have hyp : ∀ p ∈ test01.expected,
        ∃ l, checkOne extEventTimeWrong p.1 p.2 = .ok l := by
      intro p hp
      simp only [test01, List.mem_cons, List.not_mem_nil, or_false] at hp
      rcases hp with rfl | rfl | rfl | rfl <;> exact ⟨_, rfl⟩
    have h := (C6_independent_evaluation extEventTimeWrong test01.expected hyp).1
    rw [h]
    rfl
  · rfl

/-- C8: a JSON-object response lacking the top-level `extraction` key does
not raise: the extraction degrades to the empty mapping (so every field
lookup yields null), and each of the ten fixed test cases produces an
ordinary FAIL outcome of mismatch issues — not a crash and not ERROR. -/
theorem C8_missing_extraction_tolerated (tc : TestCase) (htc : tc ∈ tests)
    (fields : List (String × JVal)) (hf : pyGet fields "extraction" = none) :
    (run_test tc.id (.ok (.obj fields)) tc.expected).status = "FAIL" ∧
    (run_test tc.id (.ok (.obj fields)) tc.expected).extraction
      = some (.obj []) := by
  have hrw : run_test tc.id (.ok (.obj fields)) tc.expected
      = run_test tc.id (.ok (.obj [])) tc.expected := by
    unfold run_test run_testBody dictGetDefault
    dsimp only
    rw [hf]
    rfl
  rw [hrw]
  simp only [tests, List.mem_cons, List.not_mem_nil, or_false] at htc
  rcases htc with rfl | rfl | rfl | rfl | rfl | rfl | rfl | rfl | rfl | rfl <;>
    exact ⟨rfl, rfl⟩

/-- Witness for C8: Test 01 against a response object whose only key is
`status`. -/
theorem C8_missing_extraction_tolerated_witness :
    (run_test test01.id (.ok (.obj [("status", .str "ok")]))
        test01.expected).status = "FAIL" ∧
    (run_test test01.id (.ok (.obj [("status", .str "ok")]))
        test01.expected).extraction = some (.obj []) :=
  C8_missing_extraction_tolerated test01 (by simp [tests])
    [("status", .str "ok")] (by rfl)

/-- Unfolding of the `>` comparator branch of `confCheck`. -/
theorem confCheck_gt_eq (a : JVal) (rest : List Char) :
    confCheck a (String.mk ('>' :: rest)) =
      match parseFloat (String.mk rest) with
      | none => .error "ValueError: could not convert string to float"
      | some threshold =>
        match (if pyTruthy a then pyCmpFloat a threshold true else .ok false) with
        | .error e => .error e
        | .ok c => .ok (if c then [] else ["confidence validation failed"]) := by
  rfl

/-- Unfolding of the `<` comparator branch of `confCheck`. -/
theorem confCheck_lt_eq (a : JVal) (rest : List Char) :
    confCheck a (String.mk ('<' :: rest)) =
      match parseFloat (String.mk rest) with
      | none => .error "ValueError: could not convert string to float"
      | some threshold =>
        match (if pyTruthy a then pyCmpFloat a threshold false else .ok false) with
        | .error e => .error e
        | .ok c => .ok (if c then [] else ["confidence validation failed"]) := by
  rfl

/-- On the `"confidence"` key with a string expected value, `checkOne`
runs the threshold branch on the looked-up actual value. -/
theorem checkOne_conf (ext : List (String × JVal)) (s : String) :
    checkOne ext "confidence" (.str s) =
      confCheck ((pyGet ext "confidence").getD .null) s := by
  unfold checkOne
  rfl

/-- A one-key expected mapping validates to exactly that key's issues
when its check does not raise. -/
theorem validate_single (ext : List (String × JVal)) (k : String) (v : JVal)
    (l : List String) (h : checkOne ext k v = .ok l) :
    validateExpectations ext [(k, v)] = .ok l := by
  unfold validateExpectations
  rw [h]
  rw [show validateExpectations ext [] = .ok [] from rfl]
  dsimp only
  rw [List.append_nil]

/-- C1 is refuted at actual confidence `0.0` under `"<0.6"`: the actual is
non-null and strictly below the parsed threshold, yet the validator
records an issue, because the guard tests Python truthiness and `0.0` is
falsy. -/
theorem C1_counterexample :
    validateExpectations [("confidence", JVal.num 0)]
        [("confidence", JVal.str "<0.6")]
      = .ok ["confidence validation failed"] ∧
    JVal.num 0 ≠ JVal.null ∧
    parseFloat "0.6" = some (mkRat 6 10) ∧
    (0 : ℚ) < mkRat 6 10 := by
  refine ⟨by rfl, fun h => JVal.noConfusion h, by rfl, by decide⟩

/-- Amended C1: threshold mode records no issue iff the actual confidence
is truthy (non-null AND non-zero) and the comparison holds; a null or
absent actual fails both comparators, and so does an actual of exactly
`0.0`. -/
theorem C1_threshold_amended (a t : ℚ) (s : String)
    (hp : parseFloat s = some t) :
    (validateExpectations [("confidence", .num a)]
        [("confidence", .str (String.mk ('>' :: s.data)))] =
      .ok (if a ≠ 0 ∧ t < a then [] else ["confidence validation failed"])) ∧
    (validateExpectations [("confidence", .num a)]
        [("confidence", .str (String.mk ('<' :: s.data)))] =
      .ok (if a ≠ 0 ∧ a < t then [] else ["confidence validation failed"])) ∧
    (validateExpectations []
        [("confidence", .str (String.mk ('<' :: s.data)))] =
      .ok ["confidence validation failed"]) ∧
    (validateExpectations [("confidence", .null)]
        [("confidence", .str (String.mk ('>' :: s.data)))] =
      .ok ["confidence validation failed"]) := by
  have hp' : parseFloat (String.mk s.data) = some t := hp
  have hgt : confCheck (.num a) (String.mk ('>' :: s.data)) =
      .ok (if a ≠ 0 ∧ t < a then [] else ["confidence validation failed"]) := by
    rw [confCheck_gt_eq, hp']
    dsimp only
    by_cases h0 : a = 0
    · subst h0
      simp [pyTruthy]
    · rw [if_pos (by simp [pyTruthy, h0] : pyTruthy (JVal.num a) = true)]
      dsimp only [pyCmpFloat]
      by_cases hlt : t < a
      · simp [hlt, h0]
      · simp [hlt, h0]
  have hlt' : confCheck (.num a) (String.mk ('<' :: s.data)) =
      .ok (if a ≠ 0 ∧ a < t then [] else ["confidence validation failed"]) := by
    rw [confCheck_lt_eq, hp']
    dsimp only
    by_cases h0 : a = 0
    · subst h0
      simp [pyTruthy]
    · rw [if_pos (by simp [pyTruthy, h0] : pyTruthy (JVal.num a) = true)]
      dsimp only [pyCmpFloat]
      by_cases hlt : a < t
      · simp [hlt, h0]
      · simp [hlt, h0]
  have habs : confCheck JVal.null (String.mk ('<' :: s.data)) =
      .ok ["confidence validation failed"] := by
    rw [confCheck_lt_eq, hp']
    dsimp only
    simp [pyTruthy]
  have hnull : confCheck JVal.null (String.mk ('>' :: s.data)) =
      .ok ["confidence validation failed"] := by
    rw [confCheck_gt_eq, hp']
    dsimp only
    simp [pyTruthy]
  refine ⟨validate_single _ _ _ _ ?_, validate_single _ _ _ _ ?_,
    validate_single _ _ _ _ ?_, validate_single _ _ _ _ ?_⟩
  · rw [checkOne_conf]
    exact hgt
  · rw [checkOne_conf]
    exact hlt'
  · rw [checkOne_conf]
    exact habs
  · rw [checkOne_conf]
    exact hnull

/-- Witness for the amended C1: actual `0.5` passes `"<0.6"`, and a null
actual fails `">0.75"`. -/
theorem C1_threshold_amended_witness :
    validateExpectations [("confidence", JVal.num (mkRat 1 2))]
        [("confidence", JVal.str "<0.6")] = .ok [] ∧
    validateExpectations [("confidence", JVal.null)]
        [("confidence", JVal.str ">0.75")]
      = .ok ["confidence validation failed"] := by
  have h := C1_threshold_amended (mkRat 1 2) (mkRat 6 10) "0.6" (by rfl)
  have h2 := C1_threshold_amended (mkRat 1 2) (mkRat 75 100) "0.75" (by rfl)
  constructor
  · have hq := h.2.1
    rw [if_pos (⟨by decide, by decide⟩ : mkRat 1 2 ≠ 0 ∧ mkRat 1 2 < mkRat 6 10)] at hq
    exact hq
  · exact h2.2.2.2

/-- C2 is refuted by a reachable, well-formed JSON response: a string
confidence value is truthy, so the guard reaches `actual > threshold`,
which raises `TypeError` inside the validation step, and the outcome is
ERROR — not FAIL — for Test 01's expected mapping. -/
theorem C2_counterexample :
    (run_test "01" (.ok (.obj [("extraction",
        .obj [("confidence", .str "high")])])) test01.expected).status
      = "ERROR" := by
  rfl

/-- The `>` comparator never raises on a `numLike` actual value. -/
theorem confCheck_ok_gt (a : JVal) (ha : numLike a = true) (rest : List Char)
    (t : ℚ) (hp : parseFloat (String.mk rest) = some t) :
    ∃ l, confCheck a (String.mk ('>' :: rest)) = .ok l := by
  rw [confCheck_gt_eq, hp]
  dsimp only
  cases a with
  | null => exact ⟨_, rfl⟩
  | bool b => cases b <;> exact ⟨_, rfl⟩
  | num q =>
    by_cases hq : q = 0
    · subst hq
      exact ⟨_, rfl⟩
    · rw [if_pos (by simp [pyTruthy, hq] : pyTruthy (JVal.num q) = true)]
      exact ⟨_, rfl⟩
  | str s2 => simp [numLike] at ha
  | arr xs => simp [numLike] at ha
  | obj xs => simp [numLike] at ha

/-- The `<` comparator never raises on a `numLike` actual value. -/
theorem confCheck_ok_lt (a : JVal) (ha : numLike a = true) (rest : List Char)
    (t : ℚ) (hp : parseFloat (String.mk rest) = some t) :
    ∃ l, confCheck a (String.mk ('<' :: rest)) = .ok l := by
  rw [confCheck_lt_eq, hp]
  dsimp only
  cases a with
  | null => exact ⟨_, rfl⟩
  | bool b => cases b <;> exact ⟨_, rfl⟩
  | num q =>
    by_cases hq : q = 0
    · subst hq
      exact ⟨_, rfl⟩
    · rw [if_pos (by simp [pyTruthy, hq] : pyTruthy (JVal.num q) = true)]
      exact ⟨_, rfl⟩
  | str s2 => simp [numLike] at ha
  | arr xs => simp [numLike] at ha
  | obj xs => simp [numLike] at ha

/-- `checkOne` on a `>` confidence expectation never raises when the
looked-up confidence is `numLike`. -/
theorem checkOne_conf_ok_gt (ext : List (String × JVal)) (rest : List Char)
    (t : ℚ) (hnum : numLike ((pyGet ext "confidence").getD .null) = true)
    (hp : parseFloat (String.mk rest) = some t) :
    ∃ l, checkOne ext "confidence" (.str (String.mk ('>' :: rest))) = .ok l := by
  rw [checkOne_conf]
  exact confCheck_ok_gt _ hnum rest t hp

/-- `checkOne` on a `<` confidence expectation never raises when the
looked-up confidence is `numLike`. -/
theorem checkOne_conf_ok_lt (ext : List (String × JVal)) (rest : List Char)
    (t : ℚ) (hnum : numLike ((pyGet ext "confidence").getD .null) = true)
    (hp : parseFloat (String.mk rest) = some t) :
    ∃ l, checkOne ext "confidence" (.str (String.mk ('<' :: rest))) = .ok l := by
  rw [checkOne_conf]
  exact confCheck_ok_lt _ hnum rest t hp

/-- Amended C2: a raised transport/parsing error always yields an ERROR
outcome carrying the stringified error, but ERROR is not exclusive to the
request step — ill-typed response values can raise inside validation (see
the counterexample).  Restricted to responses whose extraction object has
an absent, null, boolean or numeric confidence, no expected mapping of
the fixed test list ever yields ERROR. -/
theorem C2_error_sources_amended :
    (∀ (id2 e : String) (exp : List (String × JVal)),
        (run_test id2 (.error e) exp).status = "ERROR" ∧
        (run_test id2 (.error e) exp).issues = [e]) ∧
    (∀ tc ∈ tests, ∀ ext : List (String × JVal),
        numLike ((pyGet ext "confidence").getD .null) = true →
        (run_test tc.id (.ok (.obj [("extraction", .obj ext)]))
            tc.expected).status ≠ "ERROR") := by
  constructor
  · exact fun id2 e exp => ⟨rfl, rfl⟩
  · intro tc htc ext hnum
    have hexists : ∃ issues, validateExpectations ext tc.expected = .ok issues := by
      simp only [tests, List.mem_cons, List.not_mem_nil, or_false] at htc
      rcases htc with rfl | rfl | rfl | rfl | rfl | rfl | rfl | rfl | rfl | rfl <;>
      · refine ⟨_, validate_ok_of_checks ext _ ?_⟩
        intro p hp
        fin_cases hp <;>
          first
            | exact ⟨_, checkOne_exact ext _ _ (by rfl) (by rfl)⟩
            | exact checkOne_conf_ok_gt ext _ (mkRat 75 100) hnum (by rfl)
            | exact checkOne_conf_ok_lt ext _ (mkRat 6 10) hnum (by rfl)
            | exact checkOne_conf_ok_lt ext _ (mkRat 5 10) hnum (by rfl)
    obtain ⟨issues, hv⟩ := hexists
    have hbody : run_testBody (.ok (.obj [("extraction", .obj ext)])) tc.expected
        = match validateExpectations ext tc.expected with
          | .error e => .error e
          | .ok issues => .ok (.obj ext, issues) := by
      rfl
    unfold run_test
    rw [hbody, hv]
    dsimp only
    cases issues <;> simp

/-- Witness for the amended C2: a transport error yields ERROR, while a
response with numeric confidence 0.8 against Test 01 does not. -/
theorem C2_error_sources_amended_witness :
    (run_test "w" (.error "Connection refused") []).status = "ERROR" ∧
    (run_test test01.id (.ok (.obj [("extraction",
        .obj [("confidence", .num (mkRat 8 10))])])) test01.expected).status
      ≠ "ERROR" :=
  ⟨(C2_error_sources_amended.1 "w" "Connection refused" []).1,
   C2_error_sources_amended.2 test01 (by simp [tests])
     [("confidence", .num (mkRat 8 10))] (by rfl)⟩
